import Mathlib

/-! Session and key lifecycle of `UserManager`.

A shallow embedding of `packages/core/api/user-manager.js`.

The class talks to four collaborators: the HTTP client, the `TokenManager`,
the database context (`db.context`, `db.outbox`, `db.sync`) and the event bus
`EV`.  Remote answers are supplied by an environment `Env` of oracles, local
stores are fields of `World`, and every effect that a caller can observe is
appended to a trace of `Action`s.  An `async` method becomes a function
`World → Outcome α`: its result (a value or a thrown `JsError`), the world it
leaves behind and the trace of what it did.
-/

namespace UserManager

/-! ## Data model -/

/-- A thrown JavaScript error.  The code only ever inspects `e.message`. -/
structure JsError where
  message : String
deriving DecidableEq, Repr

/-- The profile object of `GET /users` and the record kept under the key
`"user"`.  `remember` is absent (`none`) unless somebody set it. -/
structure User where
  email : String
  salt : String
  isEmailConfirmed : Bool
  remember : Option Bool
deriving DecidableEq, Repr

/-- The token response of `POST /connect/token`, kept by the token store. -/
structure Token where
  access_token : String
  refresh_token : String
deriving DecidableEq, Repr

/-- The answer of `POST /migrate/status`. -/
structure UserStatus where
  hcli : Bool
deriving DecidableEq, Repr

/-- The argument `data` of `_updatePassword`. -/
structure PasswordData where
  old_password : Option String
  new_password : String
deriving DecidableEq, Repr

/-- The object `hashedData` of `_updatePassword`: a key is present only when
the corresponding branch assigned it. -/
structure HashedData where
  old_password : Option String
  new_password : Option String
deriving DecidableEq, Repr

/-- The body `{ type, ...hashedData }` of `PATCH /account`. -/
structure PatchRequest where
  type : String
  hashed : HashedData
deriving DecidableEq, Repr

/-- An entry of the outbox: its type and the payload `{ newPassword }`. -/
structure OutboxEntry where
  type : String
  newPassword : String
deriving DecidableEq, Repr

/-- The value returned by `getEncryptionKey`: `{ key, salt }`. -/
structure KeyInfo where
  key : Option String
  salt : String
deriving DecidableEq, Repr

/-- The events of `EVENTS` that `UserManager` publishes, with their payload. -/
inductive Event where
  | userSignedUp
  | userLoggedIn (user : User)
  | userLoggedOut (reason : String)
  | userFetched (user : User)
deriving DecidableEq, Repr

/-- Everything observable that a method does, in the order it does it. -/
inductive Action where
  | statusQuery (email : String)
  | migrateCall (username plaintext_password hashed_password : String)
  | tokenExchange (username password : String)
  | saveToken (t : Token)
  | getAccessToken
  | profileFetch (token : String)
  | refreshToken (t : Option Token)
  | revokeToken
  | clearToken
  | contextClear
  | contextWrite (u : User)
  | deriveCryptoKey (id password salt : String)
  | patchAccount (req : PatchRequest) (token : String)
  | outboxAdd (type newPassword : String)
  | outboxDelete (type newPassword : String)
  | sync (full force : Bool)
  | publish (e : Event)
  | consoleError (e : JsError)
deriving DecidableEq, Repr

/-- The local stores: the token store, the record under `"user"`, the
in-memory key cache (identity, key) and the outbox log. -/
structure World where
  session : Option Token
  user : Option User
  keys : List (String × String)
  outbox : List OutboxEntry
deriving DecidableEq, Repr

/-- The collaborators whose code is outside `user-manager.js`, as oracles.
`hash` is `db.context.hash(password, email)`; `deriveKey` is the key
derivation behind `db.context.deriveCryptoKey`; the next five are the HTTP
endpoints; `getAccessToken`, `refreshToken` and `revokeToken` are the
`TokenManager` methods that reach the remote service, each seeing the token
store and saying what it becomes; `sync` is `db.sync(full, force)`, seeing
the stored user and saying what it becomes. -/
structure Env where
  hash : String → String → String
  deriveKey : String → String → String → Except JsError String
  getUserStatus : String → Except JsError UserStatus
  hcliMigrate : String → String → String → Except JsError Unit
  token : String → String → Except JsError Token
  profile : String → Except JsError (Option User)
  patch : PatchRequest → String → Except JsError Unit
  getAccessToken : Option Token → Except JsError (Option String) × Option Token
  refreshToken : Option Token → Option Token → Except JsError Unit × Option Token
  revokeToken : Option Token → Except JsError Unit × Option Token
  sync : Bool → Bool → Option User → Except JsError Unit × Option User

/-! ## Asynchronous computations -/

/-- What running a method leaves: its result, the world and the trace. -/
structure Outcome (α : Type) where
  result : Except JsError α
  world : World
  trace : List Action

/-- An `async` computation. -/
def Act (α : Type) : Type := World → Outcome α

/-- Resolve with a value. -/
@[simp]
def Act.pure {α : Type} (a : α) : Act α := fun w => ⟨.ok a, w, []⟩

/-- Sequencing of `await`: a rejection skips the rest. -/
@[simp]
def Act.bind {α β : Type} (m : Act α) (f : α → Act β) : Act β := fun w =>
  match (m w).result with
  | .ok a => ⟨(f a (m w).world).result, (f a (m w).world).world,
      (m w).trace ++ (f a (m w).world).trace⟩
  | .error e => ⟨.error e, (m w).world, (m w).trace⟩

instance : Monad Act where
  pure := Act.pure
  bind := Act.bind

/-- The statement `throw e`. -/
@[simp]
def throwJs {α : Type} (e : JsError) : Act α := fun w => ⟨.error e, w, []⟩

/-- The statement `try { m } catch (e) { h e }`. -/
@[simp]
def tryCatch {α : Type} (m : Act α) (h : JsError → Act α) : Act α := fun w =>
  match (m w).result with
  | .ok a => ⟨.ok a, (m w).world, (m w).trace⟩
  | .error e => ⟨(h e (m w).world).result, (h e (m w).world).world,
      (m w).trace ++ (h e (m w).world).trace⟩

/-- The statement `try { m } finally { fin }`: `fin` always runs; when it
completes normally the completion of `m` stands, when it throws its error
replaces it. -/
@[simp]
def tryFinally {α : Type} (m : Act α) (fin : Act Unit) : Act α := fun w =>
  match (fin (m w).world).result with
  | .ok _ => ⟨(m w).result, (fin (m w).world).world,
      (m w).trace ++ (fin (m w).world).trace⟩
  | .error e => ⟨.error e, (fin (m w).world).world,
      (m w).trace ++ (fin (m w).world).trace⟩

/-- Record one action. -/
@[simp]
def emit (a : Action) : Act Unit := fun w => ⟨.ok (), w, [a]⟩

/-- Truthiness of a string: only `""` is falsy. -/
def truthyStr (s : String) : Bool := s != ""

/-- The `TypeError` of reading a property of `undefined`. -/
def typeError : JsError := ⟨"Cannot read properties of undefined"⟩

/-! ## Collaborators -/

/-- The call `http.post(AUTH_HOST + "/migrate/status", { email })`. -/
@[simp]
def httpMigrateStatus (env : Env) (email : String) : Act UserStatus := fun w =>
  ⟨env.getUserStatus email, w, [.statusQuery email]⟩

/-- The call `http.post(AUTH_HOST + "/migrate/hcli", ...)`. -/
@[simp]
def httpHcliMigrate (env : Env) (email plaintextPassword hashedPassword : String) :
    Act Unit := fun w =>
  ⟨env.hcliMigrate email plaintextPassword hashedPassword, w,
    [.migrateCall email plaintextPassword hashedPassword]⟩

/-- The call `http.post(AUTH_HOST + "/connect/token", ...)` of `login`. -/
@[simp]
def httpToken (env : Env) (username password : String) : Act Token := fun w =>
  ⟨env.token username password, w, [.tokenExchange username password]⟩

/-- The call `http.get(API_HOST + "/users", token)`. -/
@[simp]
def httpGetUser (env : Env) (token : String) : Act (Option User) := fun w =>
  ⟨env.profile token, w, [.profileFetch token]⟩

/-- The call `http.patch(AUTH_HOST + "/account", { type, ...hashedData }, token)`. -/
@[simp]
def httpPatchAccount (env : Env) (req : PatchRequest) (token : String) : Act Unit :=
  fun w => ⟨env.patch req token, w, [.patchAccount req token]⟩

/-- Modelled from the spec: `TokenManager.saveToken` is outside this file;
"atomically replaces the stored Session". -/
@[simp]
def saveToken (t : Token) : Act Unit := fun w =>
  ⟨.ok (), { w with session := some t }, [.saveToken t]⟩

/-- Modelled from the spec: `TokenManager.clearToken` is outside this file;
"removes Session from TokenStore unconditionally". -/
@[simp]
def clearToken : Act Unit := fun w =>
  ⟨.ok (), { w with session := none }, [.clearToken]⟩

/-- Modelled from the spec: `TokenManager.getAccessToken` is outside this
file; it returns a token, possibly refreshing the stored Session, or fails.
The oracle decides the result and the new content of the token store. -/
@[simp]
def getAccessToken (env : Env) : Act (Option String) := fun w =>
  ⟨(env.getAccessToken w.session).1, { w with session := (env.getAccessToken w.session).2 },
    [.getAccessToken]⟩

/-- Modelled from the spec: `TokenManager.getToken(false)` is outside this
file; with renewal switched off it is a read of the token store. -/
@[simp]
def getToken : Act (Option Token) := fun w => ⟨.ok w.session, w, []⟩

/-- Modelled from the spec: `TokenManager._refreshToken(token)` is outside
this file; it asks the remote service for a fresh Session.  The oracle sees
the argument and the token store and decides the result and the new store. -/
@[simp]
def refreshToken (env : Env) (t : Option Token) : Act Unit := fun w =>
  ⟨(env.refreshToken t w.session).1, { w with session := (env.refreshToken t w.session).2 },
    [.refreshToken t]⟩

/-- Modelled from the spec: `TokenManager.revokeToken` is outside this file;
"best-effort remote revocation".  The oracle decides the result and the new
content of the token store. -/
@[simp]
def revokeToken (env : Env) : Act Unit := fun w =>
  ⟨(env.revokeToken w.session).1, { w with session := (env.revokeToken w.session).2 },
    [.revokeToken]⟩

/-- Modelled from the spec: `db.context.read("user")` is outside this file;
it reads the persisted User record. -/
@[simp]
def contextReadUser : Act (Option User) := fun w => ⟨.ok w.user, w, []⟩

/-- Modelled from the spec: `db.context.write("user", user)` is outside this
file; it replaces the persisted User record. -/
@[simp]
def contextWriteUser (u : User) : Act Unit := fun w =>
  ⟨.ok (), { w with user := some u }, [.contextWrite u]⟩

/-- Modelled from the spec: `db.context.clear()` is outside this file; it
wipes the local User context and the cached key material. -/
@[simp]
def contextClear : Act Unit := fun w =>
  ⟨.ok (), { w with user := none, keys := [] }, [.contextClear]⟩

/-- Modelled from the spec: `db.context.deriveCryptoKey(id, { password, salt })`
is outside this file; it derives the key and caches it under `id`. -/
@[simp]
def deriveCryptoKey (env : Env) (id password salt : String) : Act Unit := fun w =>
  match env.deriveKey id password salt with
  | .ok k => ⟨.ok (), { w with keys := (id, k) :: w.keys.filter (fun p => p.1 != id) },
      [.deriveCryptoKey id password salt]⟩
  | .error e => ⟨.error e, w, [.deriveCryptoKey id password salt]⟩

/-- Modelled from the spec: `db.context.getCryptoKey(id)` is outside this
file; it returns the cached key without deriving it again. -/
@[simp]
def getCryptoKey (id : String) : Act (Option String) := fun w =>
  ⟨.ok (w.keys.lookup id), w, []⟩

/-- Modelled from the spec: `db.sync(full, force)` is outside this file; the
oracle decides its result and what the stored User record becomes. -/
@[simp]
def dbSync (env : Env) (full force : Bool) : Act Unit := fun w =>
  ⟨(env.sync full force w.user).1, { w with user := (env.sync full force w.user).2 },
    [.sync full force]⟩

/-- Modelled from the spec: `db.outbox.add(type, payload, continuation)` is
outside this file; it "persists the entry, then attempts `continuation`
immediately; on success the entry is removed; on failure the entry remains
pending" and the failure reaches the caller. -/
@[simp]
def outboxAdd (type newPassword : String) (continuation : Act Unit) : Act Unit := fun w =>
  let w1 : World := { w with outbox := w.outbox ++ [⟨type, newPassword⟩] }
  match (continuation w1).result with
  | .ok _ =>
    ⟨.ok (), { (continuation w1).world with
        outbox := (continuation w1).world.outbox.erase ⟨type, newPassword⟩ },
      Action.outboxAdd type newPassword :: (continuation w1).trace
        ++ [.outboxDelete type newPassword]⟩
  | .error e =>
    ⟨.error e, (continuation w1).world,
      Action.outboxAdd type newPassword :: (continuation w1).trace⟩

/-- The call `EV.publish(kind, payload)`. -/
@[simp]
def publish (e : Event) : Act Unit := emit (.publish e)

/-- The call `console.error(e)`. -/
@[simp]
def consoleError (e : JsError) : Act Unit := emit (.consoleError e)

/-! ## The methods of `UserManager` -/

/-- The method `_getUserStatus(email)`. -/
def _getUserStatus (env : Env) (email : String) : Act UserStatus :=
  httpMigrateStatus env email

/-- The method `_hcliMigrate(email, plaintextPassword, hashedPassword)`. -/
def _hcliMigrate (env : Env) (email plaintextPassword hashedPassword : String) : Act Unit :=
  httpHcliMigrate env email plaintextPassword hashedPassword

/-- The method `_migrateUser(email, plaintextPassword)`. -/
def _migrateUser (env : Env) (email plaintextPassword : String) : Act String := do
  let status ← _getUserStatus env email
  let hashedPassword := env.hash plaintextPassword email
  if !status.hcli then
    _hcliMigrate env email plaintextPassword hashedPassword
  pure hashedPassword

/-- The method `setUser(user)`. -/
def setUser : Option User → Act Unit
  | none => pure ()
  | some user => contextWriteUser user

/-- The method `getUser()`. -/
def getUser : Act (Option User) := contextReadUser

/-- The method `logout(revoke = true, reason)`. -/
def logout (env : Env) (revoke : Bool) (reason : String) : Act Unit :=
  tryFinally
    (tryCatch (if revoke then revokeToken env else pure ()) fun e => consoleError e)
    (do
      clearToken
      contextClear
      publish (.userLoggedOut reason))

/-- The `try` block of `fetchUser(remember = false)`. -/
def fetchUserBody (env : Env) (remember : Bool) : Act (Option User) := do
  let token ← getAccessToken env
  match token with
  | none => pure none
  | some token =>
    if !truthyStr token then pure none
    else do
      let user ← httpGetUser env token
      match user with
      | some user =>
        let oldUser ← getUser
        match oldUser with
        | some oldUser =>
          if !oldUser.isEmailConfirmed && user.isEmailConfirmed then
            let token ← getToken
            refreshToken env token
        | none => pure ()
        setUser (some { user with remember := some remember })
        publish (.userFetched user)
        pure (some user)
      | none => getUser

/-- The method `fetchUser(remember = false)`. -/
def fetchUser (env : Env) (remember : Bool) : Act (Option User) :=
  tryCatch (fetchUserBody env remember) fun e =>
    if e.message = "invalid_grant" ∨ e.message = "invalid_client" then do
      logout env false "Session expired."
      pure none
    else do
      consoleError e
      getUser

/-- The method `login(email, password, remember, hashedPassword)`. -/
def login (env : Env) (email password : String) (remember : Bool)
    (hashedPassword : Option String) : Act Unit := do
  let hashedPassword ←
    match hashedPassword with
    | some h => if !truthyStr h then _migrateUser env email password else pure h
    | none => _migrateUser env email password
  let response ← httpToken env email hashedPassword
  saveToken response
  let user ← fetchUser env remember
  match user with
  | none => throwJs typeError
  | some user =>
    deriveCryptoKey env ("_uk_@" ++ user.email) password user.salt
    publish (.userLoggedIn user)

/-- The method `getEncryptionKey()`. -/
def getEncryptionKey : Act (Option KeyInfo) := do
  let user ← getUser
  match user with
  | none => pure none
  | some user =>
    let key ← getCryptoKey ("_uk_@" ++ user.email)
    pure (some { key := key, salt := user.salt })

/-- The object `hashedData` that `_updatePassword` builds. -/
def hashPasswords (env : Env) (data : PasswordData) (email : String) : HashedData :=
  { old_password :=
      match data.old_password with
      | some o => if truthyStr o then some (env.hash o email) else none
      | none => none,
    new_password :=
      if truthyStr data.new_password then some (env.hash data.new_password email) else none }

/-- The continuation that `_updatePassword` hands to the outbox. -/
def rekey (env : Env) (email salt newPassword : String) : Act Unit := do
  dbSync env true false
  deriveCryptoKey env ("_uk_@" ++ email) newPassword salt
  dbSync env false true

/-- The method `_updatePassword(type, data)`. -/
def _updatePassword (env : Env) (type : String) (data : PasswordData) : Act (Option Bool) := do
  let token ← getAccessToken env
  match token with
  | none => pure none
  | some token =>
    if !truthyStr token then pure none
    else do
      let user ← getUser
      match user with
      | none => throwJs typeError
      | some user =>
        let hashedData := hashPasswords env data user.email
        httpPatchAccount env { type := type, hashed := hashedData } token
        outboxAdd type data.new_password (rekey env user.email user.salt data.new_password)
        pure (some true)

/-- The method `changePassword(oldPassword, newPassword)`. -/
def changePassword (env : Env) (oldPassword newPassword : String) : Act (Option Bool) :=
  _updatePassword env "change_password"
    { old_password := some oldPassword, new_password := newPassword }

/-- The method `resetPassword(newPassword)`. -/
def resetPassword (env : Env) (newPassword : String) : Act (Option Bool) :=
  _updatePassword env "reset_password" { old_password := none, new_password := newPassword }

/-! ## Reading a trace -/

/-- The three remote calls that `login` makes before a Session is saved. -/
@[simp]
def Action.isLoginRequest : Action → Bool
  | .statusQuery _ => true
  | .migrateCall _ _ _ => true
  | .tokenExchange _ _ => true
  | _ => false

/-- A published "logged in" event. -/
@[simp]
def Action.isLoggedIn : Action → Bool
  | .publish (.userLoggedIn _) => true
  | _ => false

/-- A published "logged out" event. -/
@[simp]
def Action.isLoggedOut : Action → Bool
  | .publish (.userLoggedOut _) => true
  | _ => false

/-- A call of `tokenManager._refreshToken`. -/
@[simp]
def Action.isRefresh : Action → Bool
  | .refreshToken _ => true
  | _ => false

/-- A write of the User record. -/
@[simp]
def Action.isUserWrite : Action → Bool
  | .contextWrite _ => true
  | _ => false

/-- The remote account update and the enqueueing of an outbox entry. -/
@[simp]
def Action.isPasswordStep : Action → Bool
  | .patchAccount _ _ => true
  | .outboxAdd _ _ => true
  | _ => false

/-- A call of `db.context.deriveCryptoKey`. -/
@[simp]
def Action.isDerive : Action → Bool
  | .deriveCryptoKey _ _ _ => true
  | _ => false

/-- The steps of `logout(false, reason)`. -/
@[simp]
def Action.isLogoutStep : Action → Bool
  | .clearToken => true
  | .contextClear => true
  | .publish (.userLoggedOut _) => true
  | _ => false

/-- The steps that the `try` block of `fetchUser` can take. -/
@[simp]
def Action.isFetchStep : Action → Bool
  | .getAccessToken => true
  | .profileFetch _ => true
  | .refreshToken _ => true
  | .contextWrite _ => true
  | .publish (.userFetched _) => true
  | _ => false

/-- The steps that `fetchUser` can take: those of its `try` block and those
of its `catch` block. -/
@[simp]
def Action.isFetchUserStep : Action → Bool
  | .consoleError _ => true
  | a => a.isFetchStep || a.isLogoutStep

/-! ## Example environments -/

/-- A service on which everything succeeds: the account is on the legacy
scheme and the profile is the confirmed `a@b.com`. -/
def demoEnv : Env where
  hash := fun p e => "h(" ++ p ++ "," ++ e ++ ")"
  deriveKey := fun id p s => .ok ("k(" ++ id ++ "," ++ p ++ "," ++ s ++ ")")
  getUserStatus := fun _ => .ok ⟨false⟩
  hcliMigrate := fun _ _ _ => .ok ()
  token := fun _ _ => .ok ⟨"at", "rt"⟩
  profile := fun _ => .ok (some ⟨"a@b.com", "s1", true, none⟩)
  patch := fun _ _ => .ok ()
  getAccessToken := fun s => (.ok (s.map (·.access_token)), s)
  refreshToken := fun _ s => (.ok (), s)
  revokeToken := fun s => (.ok (), s)
  sync := fun _ _ u => (.ok (), u)

/-- A fresh installation: nothing stored. -/
def emptyWorld : World := ⟨none, none, [], []⟩

/-- A signed-in installation of `a@b.com`, not yet confirmed. -/
def signedInWorld : World :=
  ⟨some ⟨"at", "rt"⟩, some ⟨"a@b.com", "s1", false, some true⟩,
    [("_uk_@a@b.com", "k(_uk_@a@b.com,pw1,s1)")], []⟩

/-- A service that rejects the profile fetch with `invalid_grant`. -/
def expiredEnv : Env := { demoEnv with profile := fun _ => .error ⟨"invalid_grant"⟩ }

/-- A service whose profile fetch fails with a network error. -/
def offlineEnv : Env := { demoEnv with profile := fun _ => .error ⟨"network"⟩ }

/-- A client whose key derivation fails. -/
def keyFailEnv : Env := { demoEnv with deriveKey := fun _ _ _ => .error ⟨"kdf"⟩ }

/-- A service whose status query fails with a network error. -/
def statusFailEnv : Env := { demoEnv with getUserStatus := fun _ => .error ⟨"network"⟩ }

/-- A service whose migration call fails. -/
def migrateFailEnv : Env := { demoEnv with hcliMigrate := fun _ _ _ => .error ⟨"migration"⟩ }

/-- A service that refuses the token exchange. -/
def wrongPasswordEnv : Env := { demoEnv with token := fun _ _ => .error ⟨"invalid_grant"⟩ }

/-- A service that refuses the account update. -/
def patchFailEnv : Env := { demoEnv with patch := fun _ _ => .error ⟨"network"⟩ }

/-! ## Lemmas on the combinators -/

@[simp]
theorem bind_eq {α β : Type} (m : Act α) (f : α → Act β) : (m >>= f) = Act.bind m f := rfl

@[simp]
theorem pure_eq {α : Type} (a : α) : (pure a : Act α) = Act.pure a := rfl

/-! ## `fetchUser` -/

theorem fetchStep_is_nothing_else (a : Action) (h : a.isFetchStep = true) :
    a.isLoggedOut = false ∧ a.isLoggedIn = false ∧ a.isLoginRequest = false ∧
    a.isLogoutStep = false ∧ a.isPasswordStep = false ∧ a.isDerive = false ∧
    a ≠ .revokeToken ∧ ∀ e, a ≠ .consoleError e := by
  cases a with
  | publish ev => cases ev <;> simp at h ⊢
  | _ => simp at h ⊢

theorem fetchUserBody_steps (env : Env) (remember : Bool) (w : World) :
    ∀ a ∈ (fetchUserBody env remember w).trace, a.isFetchStep = true := by
  simp only [fetchUserBody, getUser, setUser]
  rcases h1 : (env.getAccessToken w.session).1 with e | (_ | tok)
  · simp [h1]
  · simp [h1]
  · by_cases ht : truthyStr tok = true
    · rcases h2 : env.profile tok with e | (_ | u)
      · simp [h1, ht, h2]
      · simp [h1, ht, h2]
      · rcases hu : w.user with _ | ou
        · simp [h1, ht, h2, hu]
        · cases hA : ou.isEmailConfirmed <;> cases hB : u.isEmailConfirmed <;>
            rcases h3 : (env.refreshToken (env.getAccessToken w.session).2
              (env.getAccessToken w.session).2).1 with e | _ <;>
            simp [h1, ht, h2, hu, hA, hB, h3]
    · simp [h1, ht]

theorem fetchUserBody_error (env : Env) (remember : Bool) (w : World) (e : JsError)
    (h : (fetchUserBody env remember w).result = .error e) :
    (fetchUserBody env remember w).world.user = w.user ∧
    (fetchUserBody env remember w).world.keys = w.keys ∧
    (fetchUserBody env remember w).world.outbox = w.outbox ∧
    ∀ a ∈ (fetchUserBody env remember w).trace, a.isUserWrite = false := by
  revert h
  simp only [fetchUserBody, getUser, setUser]
  rcases h1 : (env.getAccessToken w.session).1 with e | (_ | tok)
  · simp [h1]
  · simp [h1]
  · by_cases ht : truthyStr tok = true
    · rcases h2 : env.profile tok with e | (_ | u)
      · simp [h1, ht, h2]
      · simp [h1, ht, h2]
      · rcases hu : w.user with _ | ou
        · simp [h1, ht, h2, hu]
        · cases hA : ou.isEmailConfirmed <;> cases hB : u.isEmailConfirmed <;>
            rcases h3 : (env.refreshToken (env.getAccessToken w.session).2
              (env.getAccessToken w.session).2).1 with e | _ <;>
            simp [h1, ht, h2, hu, hA, hB, h3]
    · simp [h1, ht]

/-- The `try` block of `fetchUser` fails exactly when obtaining the access
token, fetching the profile or the confirmation-triggered refresh fails. -/
theorem fetchUserBody_error_iff (env : Env) (remember : Bool) (w : World) (e : JsError) :
    (fetchUserBody env remember w).result = .error e ↔
      (env.getAccessToken w.session).1 = .error e ∨
      (∃ tok, (env.getAccessToken w.session).1 = .ok (some tok) ∧ truthyStr tok = true ∧
        env.profile tok = .error e) ∨
      (∃ tok u ou, (env.getAccessToken w.session).1 = .ok (some tok) ∧ truthyStr tok = true ∧
        env.profile tok = .ok (some u) ∧ w.user = some ou ∧
        ou.isEmailConfirmed = false ∧ u.isEmailConfirmed = true ∧
        (env.refreshToken (env.getAccessToken w.session).2
          (env.getAccessToken w.session).2).1 = .error e) := by
  simp only [fetchUserBody, getUser, setUser]
  rcases h1 : (env.getAccessToken w.session).1 with e | (_ | tok)
  · simp [h1]
  · simp [h1]
  · by_cases ht : truthyStr tok = true
    · rcases h2 : env.profile tok with e | (_ | u)
      · simp [h1, ht, h2]
      · simp [h1, ht, h2]
      · rcases hu : w.user with _ | ou
        · simp [h1, ht, h2, hu]
        · cases hA : ou.isEmailConfirmed <;> cases hB : u.isEmailConfirmed <;>
            rcases h3 : (env.refreshToken (env.getAccessToken w.session).2
              (env.getAccessToken w.session).2).1 with e | _ <;>
            simp [h1, ht, h2, hu, hA, hB, h3]
    · simp [h1, ht]

/-- C1: `logout(true, reason)` never throws, whatever the revocation does;
afterwards the token store is empty, the User record and the key cache are
wiped, `clearToken` and `context.clear` have been called, and exactly one
"logged out" event, carrying `reason`, has been published. -/
theorem logout_is_unconditional (env : Env) (reason : String) (w : World) :
    (logout env true reason w).result = .ok () ∧
    (logout env true reason w).world.session = none ∧
    (logout env true reason w).world.user = none ∧
    (logout env true reason w).world.keys = [] ∧
    Action.clearToken ∈ (logout env true reason w).trace ∧
    Action.contextClear ∈ (logout env true reason w).trace ∧
    (logout env true reason w).trace.filter Action.isLoggedOut
      = [.publish (.userLoggedOut reason)] := by
  cases h : (env.revokeToken w.session).1 <;> simp [logout, h]

/-- C5: when the `try` block of `fetchUser` fails with `invalid_grant` or
`invalid_client`, `fetchUser` does not throw: it returns nothing, issues no
revocation, leaves the token store, the User record and the key cache empty,
calls `clearToken` and `context.clear`, and publishes exactly one "logged
out" event, with reason "Session expired.". -/
theorem fetchUser_session_expired (env : Env) (remember : Bool) (w : World) (e : JsError)
    (hfail : (fetchUserBody env remember w).result = .error e)
    (hkind : e.message = "invalid_grant" ∨ e.message = "invalid_client") :
    (fetchUser env remember w).result = .ok none ∧
    (fetchUser env remember w).world.session = none ∧
    (fetchUser env remember w).world.user = none ∧
    (fetchUser env remember w).world.keys = [] ∧
    Action.revokeToken ∉ (fetchUser env remember w).trace ∧
    Action.clearToken ∈ (fetchUser env remember w).trace ∧
    Action.contextClear ∈ (fetchUser env remember w).trace ∧
    (fetchUser env remember w).trace.filter Action.isLoggedOut
      = [.publish (.userLoggedOut "Session expired.")] := by
  have hs := fetchUserBody_steps env remember w
  have hrev : Action.revokeToken ∉ (fetchUserBody env remember w).trace :=
    fun hm => (fetchStep_is_nothing_else _ (hs _ hm)).2.2.2.2.2.2.1 rfl
  have hout : (fetchUserBody env remember w).trace.filter Action.isLoggedOut = [] := by
    rw [List.filter_eq_nil_iff]
    intro a ha h
    rw [(fetchStep_is_nothing_else a (hs a ha)).1] at h
    cases h
  simp [fetchUser, logout, hfail, hkind, hrev, hout]

/-- C5, at an example: the profile fetch of a signed-in installation is
rejected with `invalid_grant`. -/
theorem fetchUser_session_expired_witness :
    (fetchUserBody expiredEnv true signedInWorld).result = .error ⟨"invalid_grant"⟩ ∧
    (fetchUser expiredEnv true signedInWorld).result = .ok none ∧
    (fetchUser expiredEnv true signedInWorld).world.session = none ∧
    (fetchUser expiredEnv true signedInWorld).world.user = none ∧
    (fetchUser expiredEnv true signedInWorld).world.keys = [] :=
  have h := fetchUser_session_expired expiredEnv true signedInWorld ⟨"invalid_grant"⟩ rfl
    (Or.inl rfl)
  ⟨rfl, h.1, h.2.1, h.2.2.1, h.2.2.2.1⟩

/-- C9: when the `try` block of `fetchUser` fails with an error that is
neither `invalid_grant` nor `invalid_client`, `fetchUser` does not throw, does
nothing of a logout, leaves the stored User record as it was and returns it. -/
theorem fetchUser_other_error (env : Env) (remember : Bool) (w : World) (e : JsError)
    (hfail : (fetchUserBody env remember w).result = .error e)
    (hgrant : e.message ≠ "invalid_grant") (hclient : e.message ≠ "invalid_client") :
    (fetchUser env remember w).result = .ok w.user ∧
    (fetchUser env remember w).world.user = w.user ∧
    (fetchUser env remember w).world.keys = w.keys ∧
    Action.revokeToken ∉ (fetchUser env remember w).trace ∧
    (∀ a ∈ (fetchUser env remember w).trace, a.isLogoutStep = false) ∧
    (∀ a ∈ (fetchUser env remember w).trace, a.isUserWrite = false) := by
  have hs := fetchUserBody_steps env remember w
  have hb := fetchUserBody_error env remember w e hfail
  have hrev : Action.revokeToken ∉ (fetchUserBody env remember w).trace :=
    fun hm => (fetchStep_is_nothing_else _ (hs _ hm)).2.2.2.2.2.2.1 rfl
  have hlog : ∀ a ∈ (fetchUserBody env remember w).trace, a.isLogoutStep = false :=
    fun a ha => (fetchStep_is_nothing_else a (hs a ha)).2.2.2.1
  refine ⟨?_, ?_, ?_, ?_, ?_, ?_⟩
  · simp [fetchUser, getUser, hfail, hgrant, hclient, hb.1]
  · simp [fetchUser, getUser, hfail, hgrant, hclient, hb.1]
  · simp [fetchUser, getUser, hfail, hgrant, hclient, hb.2.1]
  · simp [fetchUser, getUser, hfail, hgrant, hclient, hrev]
  · intro a ha
    simp [fetchUser, getUser, hfail, hgrant, hclient] at ha
    rcases ha with ha | ha
    · exact hlog a ha
    · subst ha; rfl
  · intro a ha
    simp [fetchUser, getUser, hfail, hgrant, hclient] at ha
    rcases ha with ha | ha
    · exact hb.2.2.2 a ha
    · subst ha; rfl

/-- C9, at an example: the profile fetch of a signed-in installation fails
with a network error. -/
theorem fetchUser_other_error_witness :
    (fetchUserBody offlineEnv true signedInWorld).result = .error ⟨"network"⟩ ∧
    (fetchUser offlineEnv true signedInWorld).result = .ok signedInWorld.user ∧
    (fetchUser offlineEnv true signedInWorld).world.user = signedInWorld.user :=
  have h := fetchUser_other_error offlineEnv true signedInWorld ⟨"network"⟩ rfl
    (by decide) (by decide)
  ⟨rfl, h.1, h.2.1⟩

/-- C6: when the profile fetch of `fetchUser` succeeds with a user `u`, the
run calls `_refreshToken` exactly once if a User record is stored with
`isEmailConfirmed` false and `u.isEmailConfirmed` is true, and then no write of
the User record precedes that call; in every other case it never calls it. -/
theorem fetchUser_refresh_on_confirmation (env : Env) (remember : Bool) (w : World)
    (tok : String) (u : User)
    (htok : (env.getAccessToken w.session).1 = .ok (some tok))
    (htruthy : truthyStr tok = true)
    (hprofile : env.profile tok = .ok (some u)) :
    (((∃ ou, w.user = some ou ∧ ou.isEmailConfirmed = false) ∧ u.isEmailConfirmed = true) →
      ((fetchUser env remember w).trace.filter Action.isRefresh).length = 1 ∧
      ∃ pre post t, (fetchUser env remember w).trace = pre ++ Action.refreshToken t :: post ∧
        ∀ a ∈ pre, a.isUserWrite = false) ∧
    (¬ ((∃ ou, w.user = some ou ∧ ou.isEmailConfirmed = false) ∧ u.isEmailConfirmed = true) →
      ((fetchUser env remember w).trace.filter Action.isRefresh).length = 0) := by
  simp only [fetchUser, fetchUserBody, getUser, setUser, logout]
  rcases hu : w.user with _ | ou
  · simp [htok, htruthy, hprofile, hu]
  · cases hA : ou.isEmailConfirmed <;> cases hB : u.isEmailConfirmed
    · simp [htok, htruthy, hprofile, hu, hA, hB]
    · rcases h3 : (env.refreshToken (env.getAccessToken w.session).2
        (env.getAccessToken w.session).2).1 with e | _
      · by_cases hk : e.message = "invalid_grant" ∨ e.message = "invalid_client"
        · simp [htok, htruthy, hprofile, hu, hA, hB, h3, hk]
          exact ⟨[.getAccessToken, .profileFetch tok], ⟨_, _, rfl⟩, by simp⟩
        · simp [htok, htruthy, hprofile, hu, hA, hB, h3, hk]
          exact ⟨[.getAccessToken, .profileFetch tok], ⟨_, _, rfl⟩, by simp⟩
      · simp [htok, htruthy, hprofile, hu, hA, hB, h3]
        exact ⟨[.getAccessToken, .profileFetch tok], ⟨_, _, rfl⟩, by simp⟩
    · simp [htok, htruthy, hprofile, hu, hA, hB]
    · simp [htok, htruthy, hprofile, hu, hA, hB]

/-- C6, at an example: the stored user is unconfirmed and the fetched one is
confirmed. -/
theorem fetchUser_refresh_on_confirmation_witness :
    ((fetchUser demoEnv true signedInWorld).trace.filter Action.isRefresh).length = 1 :=
  ((fetchUser_refresh_on_confirmation demoEnv true signedInWorld "at"
    ⟨"a@b.com", "s1", true, none⟩ rfl rfl rfl).1 ⟨⟨_, rfl, rfl⟩, rfl⟩).1

theorem fetchUser_steps (env : Env) (remember : Bool) (w : World) :
    ∀ a ∈ (fetchUser env remember w).trace, a.isFetchUserStep = true := by
  have hs := fetchUserBody_steps env remember w
  have hs2 : ∀ a ∈ (fetchUserBody env remember w).trace, a.isFetchUserStep = true := by
    intro a ha
    have := hs a ha
    cases a <;> simp_all
  rcases hres : (fetchUserBody env remember w).result with e | x
  · by_cases hk : e.message = "invalid_grant" ∨ e.message = "invalid_client"
    · intro a ha
      simp [fetchUser, logout, hres, hk] at ha
      rcases ha with ha | ha | ha | ha
      · exact hs2 a ha
      · subst ha; rfl
      · subst ha; rfl
      · subst ha; rfl
    · intro a ha
      simp [fetchUser, getUser, hres, hk] at ha
      rcases ha with ha | ha
      · exact hs2 a ha
      · subst ha; rfl
  · intro a ha
    simp [fetchUser, hres] at ha
    exact hs2 a ha

theorem fetchUserStep_is_nothing_else (a : Action) (h : a.isFetchUserStep = true) :
    a.isLoggedIn = false ∧ a.isLoginRequest = false ∧ a.isPasswordStep = false ∧
    a.isDerive = false ∧ ∀ t, a ≠ .saveToken t := by
  cases a with
  | publish ev => cases ev <;> simp at h ⊢
  | _ => simp at h ⊢

/-! ## `login` -/

theorem fetchUser_no_login_request (env : Env) (remember : Bool) (w : World) :
    (fetchUser env remember w).trace.filter Action.isLoginRequest = [] := by
  rw [List.filter_eq_nil_iff]
  intro a ha h
  rw [(fetchUserStep_is_nothing_else a (fetchUser_steps env remember w a ha)).2.1] at h
  cases h

theorem fetchUser_no_logged_in (env : Env) (remember : Bool) (w : World) :
    (fetchUser env remember w).trace.filter Action.isLoggedIn = [] := by
  rw [List.filter_eq_nil_iff]
  intro a ha h
  rw [(fetchUserStep_is_nothing_else a (fetchUser_steps env remember w a ha)).1] at h
  cases h

/-- C4: a `login` without a precomputed hash, whose status query, migration
call (when made) and token exchange succeed, makes exactly one status query,
then exactly one migration call carrying the email, the plaintext password
and `hash(password, email)` when the status reports the legacy scheme
(`hcli` false) and none otherwise, then exactly one token exchange carrying
that same hash as the password. -/
theorem login_migrates_once (env : Env) (email password : String) (remember : Bool)
    (w : World) (st : UserStatus) (t : Token)
    (hstatus : env.getUserStatus email = .ok st)
    (hmigrate : st.hcli = false →
      env.hcliMigrate email password (env.hash password email) = .ok ())
    (htoken : env.token email (env.hash password email) = .ok t) :
    (login env email password remember none w).trace.filter Action.isLoginRequest =
      Action.statusQuery email ::
        ((if st.hcli then [] else [Action.migrateCall email password (env.hash password email)])
          ++ [Action.tokenExchange email (env.hash password email)]) := by
  have hf := fetchUser_no_login_request env remember
  simp only [login, _migrateUser, _getUserStatus, _hcliMigrate]
  cases hh : st.hcli
  · have hm := hmigrate hh
    rcases hr : (fetchUser env remember ⟨some t, w.user, w.keys, w.outbox⟩).result
      with e | (_ | x)
    · simp [hstatus, hh, hm, htoken, hr, hf]
    · simp [hstatus, hh, hm, htoken, hr, hf]
    · rcases hd : env.deriveKey ("_uk_@" ++ x.email) password x.salt with e | k <;>
        simp [hstatus, hh, hm, htoken, hr, hf, hd]
  · rcases hr : (fetchUser env remember ⟨some t, w.user, w.keys, w.outbox⟩).result
      with e | (_ | x)
    · simp [hstatus, hh, htoken, hr, hf]
    · simp [hstatus, hh, htoken, hr, hf]
    · rcases hd : env.deriveKey ("_uk_@" ++ x.email) password x.salt with e | k <;>
        simp [hstatus, hh, htoken, hr, hf, hd]

/-- C4, at an example: the account of `a@b.com` is on the legacy scheme. -/
theorem login_migrates_once_witness :
    (login demoEnv "a@b.com" "pw1" true none emptyWorld).trace.filter Action.isLoginRequest =
      [.statusQuery "a@b.com", .migrateCall "a@b.com" "pw1" "h(pw1,a@b.com)",
        .tokenExchange "a@b.com" "h(pw1,a@b.com)"] :=
  login_migrates_once demoEnv "a@b.com" "pw1" true emptyWorld ⟨false⟩ ⟨"at", "rt"⟩ rfl
    (fun _ => rfl) rfl

/-- C2 fails as stated: when the key derivation fails, `login` fails after
the token exchange, with the Session saved and the User record written. -/
theorem login_failure_after_exchange :
    (login keyFailEnv "a@b.com" "pw1" true none emptyWorld).result = .error ⟨"kdf"⟩ ∧
    Action.tokenExchange "a@b.com" "h(pw1,a@b.com)" ∈
      (login keyFailEnv "a@b.com" "pw1" true none emptyWorld).trace ∧
    emptyWorld.session = none ∧
    (login keyFailEnv "a@b.com" "pw1" true none emptyWorld).world.session
      = some ⟨"at", "rt"⟩ ∧
    emptyWorld.user = none ∧
    (login keyFailEnv "a@b.com" "pw1" true none emptyWorld).world.user
      = some ⟨"a@b.com", "s1", true, some true⟩ :=
  ⟨rfl, by decide, rfl, rfl, rfl, rfl⟩

/-- C2, amended: a `login` that fails at the status query, at the migration
call or at the token exchange (reached through the migration path or with a
precomputed hash) throws that error with no Session saved and the local state
as it was: no User record written, no key cached; its trace holds nothing but
those remote calls. -/
theorem login_failure_before_session_saved (env : Env) (email password : String)
    (remember : Bool) (hashedPassword : Option String) (w : World) (e : JsError)
    (hfail :
      ((∀ h, hashedPassword = some h → truthyStr h = false) ∧
        env.getUserStatus email = .error e) ∨
      ((∀ h, hashedPassword = some h → truthyStr h = false) ∧
        ∃ st, env.getUserStatus email = .ok st ∧ st.hcli = false ∧
          env.hcliMigrate email password (env.hash password email) = .error e) ∨
      ((∀ h, hashedPassword = some h → truthyStr h = false) ∧
        ∃ st, env.getUserStatus email = .ok st ∧
          (st.hcli = false →
            env.hcliMigrate email password (env.hash password email) = .ok ()) ∧
          env.token email (env.hash password email) = .error e) ∨
      (∃ h, hashedPassword = some h ∧ truthyStr h = true ∧ env.token email h = .error e)) :
    (login env email password remember hashedPassword w).result = .error e ∧
    (login env email password remember hashedPassword w).world = w ∧
    (∀ t, Action.saveToken t ∉ (login env email password remember hashedPassword w).trace) ∧
    ∀ a ∈ (login env email password remember hashedPassword w).trace,
      a.isLoginRequest = true := by
  rcases hfail with ⟨hno, hs⟩ | ⟨hno, st, hs, hh, hm⟩ | ⟨hno, st, hs, hm, ht⟩ |
    ⟨h, rfl, hp, ht⟩
  · rcases hashedPassword with _ | h
    · simp [login, _migrateUser, _getUserStatus, hs]
    · simp [login, _migrateUser, _getUserStatus, hs, hno h rfl]
  · rcases hashedPassword with _ | h
    · simp [login, _migrateUser, _getUserStatus, _hcliMigrate, hs, hh, hm]
    · simp [login, _migrateUser, _getUserStatus, _hcliMigrate, hs, hh, hm, hno h rfl]
  · cases hh : st.hcli
    · have hm2 := hm hh
      rcases hashedPassword with _ | h
      · simp [login, _migrateUser, _getUserStatus, _hcliMigrate, hs, hh, hm2, ht]
      · simp [login, _migrateUser, _getUserStatus, _hcliMigrate, hs, hh, hm2, ht, hno h rfl]
    · rcases hashedPassword with _ | h
      · simp [login, _migrateUser, _getUserStatus, _hcliMigrate, hs, hh, ht]
      · simp [login, _migrateUser, _getUserStatus, _hcliMigrate, hs, hh, ht, hno h rfl]
  · simp [login, hp, ht]

/-- C2 amended, at three examples on a signed-in installation: the status
query fails, the migration call fails, the token exchange is refused. -/
theorem login_failure_before_session_saved_witness :
    ((login statusFailEnv "a@b.com" "pw1" true none signedInWorld).result
        = .error ⟨"network"⟩ ∧
      (login statusFailEnv "a@b.com" "pw1" true none signedInWorld).world = signedInWorld) ∧
    ((login migrateFailEnv "a@b.com" "pw1" true none signedInWorld).result
        = .error ⟨"migration"⟩ ∧
      (login migrateFailEnv "a@b.com" "pw1" true none signedInWorld).world = signedInWorld) ∧
    ((login wrongPasswordEnv "a@b.com" "pw1" true none signedInWorld).result
        = .error ⟨"invalid_grant"⟩ ∧
      (login wrongPasswordEnv "a@b.com" "pw1" true none signedInWorld).world = signedInWorld) :=
  have h1 := login_failure_before_session_saved statusFailEnv "a@b.com" "pw1" true none
    signedInWorld ⟨"network"⟩ (Or.inl ⟨(fun _ h => by cases h), rfl⟩)
  have h2 := login_failure_before_session_saved migrateFailEnv "a@b.com" "pw1" true none
    signedInWorld ⟨"migration"⟩
    (Or.inr (Or.inl ⟨(fun _ h => by cases h), ⟨false⟩, rfl, rfl, rfl⟩))
  have h3 := login_failure_before_session_saved wrongPasswordEnv "a@b.com" "pw1" true none
    signedInWorld ⟨"invalid_grant"⟩
    (Or.inr (Or.inr (Or.inl ⟨(fun _ h => by cases h), ⟨false⟩, rfl, fun _ => rfl, rfl⟩)))
  ⟨⟨h1.1, h1.2.1⟩, ⟨h2.1, h2.2.1⟩, ⟨h3.1, h3.2.1⟩⟩

theorem fetchUser_quiet (env : Env) (remember : Bool) (w : World) (u x : User)
    (hres : (fetchUser env remember w).result = .ok (some x))
    (hquiet : ∀ e, Action.consoleError e ∉ (fetchUser env remember w).trace)
    (hprofile : ∀ tok, env.profile tok = .ok (some u)) :
    x = u ∧ (fetchUser env remember w).world.user = some { u with remember := some remember } ∧
    (fetchUser env remember w).world.keys = w.keys := by
  revert hres hquiet
  simp only [fetchUser, fetchUserBody, getUser, setUser, logout]
  rcases h1 : (env.getAccessToken w.session).1 with e | (_ | tok)
  · by_cases hk : e.message = "invalid_grant" ∨ e.message = "invalid_client"
    · simp [h1, hk]
    · simp [h1, hk]
  · simp [h1]
  · by_cases ht : truthyStr tok = true
    · have h2 := hprofile tok
      rcases hu : w.user with _ | ou
      · simp [h1, ht, h2, hu]
        intro h
        exact h.symm
      · cases hA : ou.isEmailConfirmed <;> cases hB : u.isEmailConfirmed
        · simp [h1, ht, h2, hu, hA, hB]
          intro h
          exact h.symm
        · rcases h3 : (env.refreshToken (env.getAccessToken w.session).2
            (env.getAccessToken w.session).2).1 with e | _
          · by_cases hk : e.message = "invalid_grant" ∨ e.message = "invalid_client"
            · simp [h1, ht, h2, hu, hA, hB, h3, hk]
            · simp [h1, ht, h2, hu, hA, hB, h3, hk]
          · simp [h1, ht, h2, hu, hA, hB, h3]
            intro h
            exact h.symm
        · simp [h1, ht, h2, hu, hA, hB]
          intro h
          exact h.symm
        · simp [h1, ht, h2, hu, hA, hB]
          intro h
          exact h.symm
    · simp [h1, ht]

/-- A `login` that succeeds has saved a token `t`, then run `fetchUser` to a
user `x`, then derived the key under the identity of `x` and published `x`. -/
theorem login_ok_shape (env : Env) (email password : String) (remember : Bool)
    (hashedPassword : Option String) (w : World)
    (hok : (login env email password remember hashedPassword w).result = .ok ()) :
    ∃ (t : Token) (pre : List Action) (x : User) (k : String),
      (∀ a ∈ pre, a.isLoginRequest = true) ∧
      (fetchUser env remember ⟨some t, w.user, w.keys, w.outbox⟩).result = .ok (some x) ∧
      env.deriveKey ("_uk_@" ++ x.email) password x.salt = .ok k ∧
      (login env email password remember hashedPassword w).trace =
        pre ++ Action.saveToken t ::
          ((fetchUser env remember ⟨some t, w.user, w.keys, w.outbox⟩).trace ++
            [.deriveCryptoKey ("_uk_@" ++ x.email) password x.salt,
              .publish (.userLoggedIn x)]) ∧
      (login env email password remember hashedPassword w).world.user =
        (fetchUser env remember ⟨some t, w.user, w.keys, w.outbox⟩).world.user := by
  rcases hashedPassword with _ | h
  · rcases hs : env.getUserStatus email with e1 | st
    · simp [login, _migrateUser, _getUserStatus, hs] at hok
    · cases hh : st.hcli
      · rcases hm : env.hcliMigrate email password (env.hash password email) with e2 | _
        · simp [login, _migrateUser, _getUserStatus, _hcliMigrate, hs, hh, hm] at hok
        · rcases ht : env.token email (env.hash password email) with e3 | t
          · simp [login, _migrateUser, _getUserStatus, _hcliMigrate, hs, hh, hm, ht] at hok
          · rcases hr : (fetchUser env remember ⟨some t, w.user, w.keys, w.outbox⟩).result
              with e | (_ | x)
            · simp [login, _migrateUser, _getUserStatus, _hcliMigrate, hs, hh, hm, ht, hr] at hok
            · simp [login, _migrateUser, _getUserStatus, _hcliMigrate, hs, hh, hm, ht, hr,
                typeError] at hok
            · rcases hd : env.deriveKey ("_uk_@" ++ x.email) password x.salt with e | k
              · simp [login, _migrateUser, _getUserStatus, _hcliMigrate, hs, hh, hm, ht, hr,
                  hd] at hok
              · refine ⟨t, [.statusQuery email,
                  .migrateCall email password (env.hash password email),
                  .tokenExchange email (env.hash password email)],
                  x, k, by simp, hr, hd, ?_, ?_⟩
                · simp [login, _migrateUser, _getUserStatus, _hcliMigrate, hs, hh, hm, ht, hr, hd]
                · simp [login, _migrateUser, _getUserStatus, _hcliMigrate, hs, hh, hm, ht, hr, hd]
      · rcases ht : env.token email (env.hash password email) with e3 | t
        · simp [login, _migrateUser, _getUserStatus, _hcliMigrate, hs, hh, ht] at hok
        · rcases hr : (fetchUser env remember ⟨some t, w.user, w.keys, w.outbox⟩).result
            with e | (_ | x)
          · simp [login, _migrateUser, _getUserStatus, _hcliMigrate, hs, hh, ht, hr] at hok
          · simp [login, _migrateUser, _getUserStatus, _hcliMigrate, hs, hh, ht, hr,
              typeError] at hok
          · rcases hd : env.deriveKey ("_uk_@" ++ x.email) password x.salt with e | k
            · simp [login, _migrateUser, _getUserStatus, _hcliMigrate, hs, hh, ht, hr, hd] at hok
            · refine ⟨t, [.statusQuery email, .tokenExchange email (env.hash password email)],
                x, k, by simp, hr, hd, ?_, ?_⟩
              · simp [login, _migrateUser, _getUserStatus, _hcliMigrate, hs, hh, ht, hr, hd]
              · simp [login, _migrateUser, _getUserStatus, _hcliMigrate, hs, hh, ht, hr, hd]
  · by_cases hp : truthyStr h = true
    · rcases ht : env.token email h with e3 | t
      · simp [login, hp, ht] at hok
      · rcases hr : (fetchUser env remember ⟨some t, w.user, w.keys, w.outbox⟩).result
          with e | (_ | x)
        · simp [login, _migrateUser, _getUserStatus, _hcliMigrate, hp, ht, hr] at hok
        · simp [login, _migrateUser, _getUserStatus, _hcliMigrate, hp, ht, hr, typeError] at hok
        · rcases hd : env.deriveKey ("_uk_@" ++ x.email) password x.salt with e | k
          · simp [login, _migrateUser, _getUserStatus, _hcliMigrate, hp, ht, hr, hd] at hok
          · refine ⟨t, [.tokenExchange email h], x, k, by simp, hr, hd, ?_, ?_⟩
            · simp [login, _migrateUser, _getUserStatus, _hcliMigrate, hp, ht, hr, hd]
            · simp [login, _migrateUser, _getUserStatus, _hcliMigrate, hp, ht, hr, hd]
    · rcases hs : env.getUserStatus email with e1 | st
      · simp [login, _migrateUser, _getUserStatus, hp, hs] at hok
      · cases hh : st.hcli
        · rcases hm : env.hcliMigrate email password (env.hash password email) with e2 | _
          · simp [login, _migrateUser, _getUserStatus, _hcliMigrate, hp, hs, hh, hm] at hok
          · rcases ht : env.token email (env.hash password email) with e3 | t
            · simp [login, _migrateUser, _getUserStatus, _hcliMigrate, hp, hs, hh, hm, ht] at hok
            · rcases hr : (fetchUser env remember ⟨some t, w.user, w.keys, w.outbox⟩).result
                with e | (_ | x)
              · simp [login, _migrateUser, _getUserStatus, _hcliMigrate, hp, hs, hh, hm, ht,
                  hr] at hok
              · simp [login, _migrateUser, _getUserStatus, _hcliMigrate, hp, hs, hh, hm, ht, hr,
                  typeError] at hok
              · rcases hd : env.deriveKey ("_uk_@" ++ x.email) password x.salt with e | k
                · simp [login, _migrateUser, _getUserStatus, _hcliMigrate, hp, hs, hh, hm, ht,
                    hr, hd] at hok
                · refine ⟨t, [.statusQuery email,
                    .migrateCall email password (env.hash password email),
                    .tokenExchange email (env.hash password email)],
                    x, k, by simp, hr, hd, ?_, ?_⟩
                  · simp [login, _migrateUser, _getUserStatus, _hcliMigrate, hp, hs, hh, hm, ht,
                      hr, hd]
                  · simp [login, _migrateUser, _getUserStatus, _hcliMigrate, hp, hs, hh, hm, ht,
                      hr, hd]
        · rcases ht : env.token email (env.hash password email) with e3 | t
          · simp [login, _migrateUser, _getUserStatus, _hcliMigrate, hp, hs, hh, ht] at hok
          · rcases hr : (fetchUser env remember ⟨some t, w.user, w.keys, w.outbox⟩).result
              with e | (_ | x)
            · simp [login, _migrateUser, _getUserStatus, _hcliMigrate, hp, hs, hh, ht, hr] at hok
            · simp [login, _migrateUser, _getUserStatus, _hcliMigrate, hp, hs, hh, ht, hr,
                typeError] at hok
            · rcases hd : env.deriveKey ("_uk_@" ++ x.email) password x.salt with e | k
              · simp [login, _migrateUser, _getUserStatus, _hcliMigrate, hp, hs, hh, ht, hr,
                  hd] at hok
              · refine ⟨t, [.statusQuery email, .tokenExchange email (env.hash password email)],
                  x, k, by simp, hr, hd, ?_, ?_⟩
                · simp [login, _migrateUser, _getUserStatus, _hcliMigrate, hp, hs, hh, ht, hr, hd]
                · simp [login, _migrateUser, _getUserStatus, _hcliMigrate, hp, hs, hh, ht, hr, hd]

theorem loginRequest_is_not_logged_in (a : Action) (h : a.isLoginRequest = true) :
    a.isLoggedIn = false := by
  cases a <;> simp at h ⊢

/-- C3 fails as stated: in the scenario of the specification the stored User
has `remember` set, and the one "logged in" event carries the profile as it
was fetched, without `remember`. -/
theorem login_event_carries_profile :
    (login demoEnv "a@b.com" "pw1" true none emptyWorld).result = .ok () ∧
    (login demoEnv "a@b.com" "pw1" true none emptyWorld).world.user
      = some ⟨"a@b.com", "s1", true, some true⟩ ∧
    (login demoEnv "a@b.com" "pw1" true none emptyWorld).trace.filter Action.isLoggedIn
      = [.publish (.userLoggedIn ⟨"a@b.com", "s1", true, none⟩)] ∧
    (⟨"a@b.com", "s1", true, none⟩ : User) ≠ ⟨"a@b.com", "s1", true, some true⟩ :=
  ⟨rfl, rfl, by decide, by decide⟩

/-- C3, amended: when `login` succeeds without an error having been logged on
the way, against a service whose profile fetch returns `u`, the stored User
record is `u` with `remember` set to the given flag, and exactly one "logged
in" event is published, whose payload is `u` as it was fetched. -/
theorem login_stores_user_and_publishes_profile (env : Env) (email password : String)
    (remember : Bool) (hashedPassword : Option String) (w : World) (u : User)
    (hok : (login env email password remember hashedPassword w).result = .ok ())
    (hquiet :
      ∀ e, Action.consoleError e ∉ (login env email password remember hashedPassword w).trace)
    (hprofile : ∀ tok, env.profile tok = .ok (some u)) :
    (login env email password remember hashedPassword w).world.user
      = some { u with remember := some remember } ∧
    (login env email password remember hashedPassword w).trace.filter Action.isLoggedIn
      = [.publish (.userLoggedIn u)] := by
  obtain ⟨t, pre, x, k, hpre, hr, hd, htrace, huser⟩ :=
    login_ok_shape env email password remember hashedPassword w hok
  have hq : ∀ e, Action.consoleError e ∉
      (fetchUser env remember ⟨some t, w.user, w.keys, w.outbox⟩).trace := by
    intro e he
    apply hquiet e
    rw [htrace]
    simp [he]
  obtain ⟨hx, hu, _⟩ := fetchUser_quiet env remember _ u x hr hq hprofile
  subst hx
  have hpre2 : pre.filter Action.isLoggedIn = [] := by
    rw [List.filter_eq_nil_iff]
    intro a ha h
    rw [loginRequest_is_not_logged_in a (hpre a ha)] at h
    cases h
  refine ⟨by rw [huser, hu], ?_⟩
  rw [htrace]
  simp [List.filter_cons, hpre2, fetchUser_no_logged_in]

/-- C3 amended, at the scenario of the specification. -/
theorem login_stores_user_and_publishes_profile_witness :
    (login demoEnv "a@b.com" "pw1" true none emptyWorld).world.user
      = some ⟨"a@b.com", "s1", true, some true⟩ ∧
    (login demoEnv "a@b.com" "pw1" true none emptyWorld).trace.filter Action.isLoggedIn
      = [.publish (.userLoggedIn ⟨"a@b.com", "s1", true, none⟩)] :=
  login_stores_user_and_publishes_profile demoEnv "a@b.com" "pw1" true none emptyWorld
    ⟨"a@b.com", "s1", true, none⟩ rfl
    (fun e h => by
      simp [login, _migrateUser, _getUserStatus, _hcliMigrate, fetchUser, fetchUserBody, getUser,
        setUser, truthyStr, demoEnv, emptyWorld] at h)
    (fun _ => rfl)

/-! ## `changePassword` and `resetPassword` -/

theorem rekey_no_password_step (env : Env) (email salt newPassword : String) (w : World) :
    (rekey env email salt newPassword w).trace.filter Action.isPasswordStep = [] := by
  simp only [rekey]
  rcases h1 : (env.sync true false w.user).1 with e | _
  · simp [h1]
  · rcases h2 : env.deriveKey ("_uk_@" ++ email) newPassword salt with e | k
    · simp [h1, h2]
    · rcases h3 : (env.sync false true (env.sync true false w.user).2).1 with e | _ <;>
        simp [h1, h2, h3]

theorem rekey_ok (env : Env) (email salt newPassword : String) (w : World)
    (hok : (rekey env email salt newPassword w).result = .ok ()) :
    ∃ k, env.deriveKey ("_uk_@" ++ email) newPassword salt = .ok k ∧
      (rekey env email salt newPassword w).world.keys =
        ("_uk_@" ++ email, k) :: w.keys.filter (fun p => p.1 != "_uk_@" ++ email) := by
  revert hok
  simp only [rekey]
  rcases h1 : (env.sync true false w.user).1 with e | _
  · simp [h1]
  · rcases h2 : env.deriveKey ("_uk_@" ++ email) newPassword salt with e | k
    · simp [h1, h2]
    · rcases h3 : (env.sync false true (env.sync true false w.user).2).1 with e | _ <;>
        simp [h1, h2, h3]

theorem updatePassword_trace (env : Env) (type : String) (data : PasswordData) (w : World)
    (tok : String) (u : User)
    (htok : (env.getAccessToken w.session).1 = .ok (some tok))
    (htruthy : truthyStr tok = true)
    (huser : w.user = some u)
    (hpatch : env.patch ⟨type, hashPasswords env data u.email⟩ tok = .ok ()) :
    (_updatePassword env type data w).trace.filter Action.isPasswordStep =
      [.patchAccount ⟨type, hashPasswords env data u.email⟩ tok,
        .outboxAdd type data.new_password] := by
  have hk2 := rekey_no_password_step env u.email u.salt data.new_password
  rcases hr : (rekey env u.email u.salt data.new_password
    ⟨(env.getAccessToken w.session).2, some u, w.keys,
      w.outbox ++ [⟨type, data.new_password⟩]⟩).result with e | _
  · simp [_updatePassword, getUser, htok, htruthy, huser, hpatch, hr, hk2]
  · simp [_updatePassword, getUser, htok, htruthy, huser, hpatch, hr, hk2]

/-- C8 fails as stated: the entry that `changePassword` enqueues has the type
`change_password`, and no entry of type `password-update` is enqueued. -/
theorem changePassword_entry_type :
    (changePassword demoEnv "old" "new" signedInWorld).result = .ok (some true) ∧
    (changePassword demoEnv "old" "new" signedInWorld).trace.filter Action.isPasswordStep =
      [.patchAccount ⟨"change_password", ⟨some "h(old,a@b.com)", some "h(new,a@b.com)"⟩⟩ "at",
        .outboxAdd "change_password" "new"] ∧
    Action.outboxAdd "password-update" "new" ∉
      (changePassword demoEnv "old" "new" signedInWorld).trace :=
  ⟨rfl, by decide, by decide⟩

/-- C8, amended: a `changePassword` or `resetPassword` made with a valid
access token, whose remote update succeeds, makes the remote update and then
enqueues exactly one outbox entry; the entry has the type `change_password`,
respectively `reset_password`, and its payload carries the new password. -/
theorem password_update_enqueues_once (env : Env) (w : World) (tok : String) (u : User)
    (htok : (env.getAccessToken w.session).1 = .ok (some tok))
    (htruthy : truthyStr tok = true)
    (huser : w.user = some u) :
    (∀ old new : String,
      env.patch ⟨"change_password", hashPasswords env ⟨some old, new⟩ u.email⟩ tok = .ok () →
      (changePassword env old new w).trace.filter Action.isPasswordStep =
        [.patchAccount ⟨"change_password", hashPasswords env ⟨some old, new⟩ u.email⟩ tok,
          .outboxAdd "change_password" new]) ∧
    (∀ new : String,
      env.patch ⟨"reset_password", hashPasswords env ⟨none, new⟩ u.email⟩ tok = .ok () →
      (resetPassword env new w).trace.filter Action.isPasswordStep =
        [.patchAccount ⟨"reset_password", hashPasswords env ⟨none, new⟩ u.email⟩ tok,
          .outboxAdd "reset_password" new]) :=
  ⟨fun old new hpatch =>
      updatePassword_trace env "change_password" ⟨some old, new⟩ w tok u htok htruthy huser hpatch,
    fun new hpatch =>
      updatePassword_trace env "reset_password" ⟨none, new⟩ w tok u htok htruthy huser hpatch⟩

/-- C8 amended, at an example: a signed-in user changes, then resets, the
password. -/
theorem password_update_enqueues_once_witness :
    (changePassword demoEnv "old" "new" signedInWorld).trace.filter Action.isPasswordStep =
      [.patchAccount ⟨"change_password", ⟨some "h(old,a@b.com)", some "h(new,a@b.com)"⟩⟩ "at",
        .outboxAdd "change_password" "new"] ∧
    (resetPassword demoEnv "new" signedInWorld).trace.filter Action.isPasswordStep =
      [.patchAccount ⟨"reset_password", ⟨none, some "h(new,a@b.com)"⟩⟩ "at",
        .outboxAdd "reset_password" "new"] :=
  have h := password_update_enqueues_once demoEnv signedInWorld "at"
    ⟨"a@b.com", "s1", false, some true⟩ rfl rfl rfl
  ⟨h.1 "old" "new" rfl, h.2 "new" rfl⟩

/-- C10: when the remote account update of `changePassword` fails, the error
reaches the caller, nothing is enqueued in the outbox, no key is derived, and
the key cache, the User record and the outbox are what they were. -/
theorem changePassword_remote_failure (env : Env) (old new : String) (w : World)
    (tok : String) (u : User) (e : JsError)
    (htok : (env.getAccessToken w.session).1 = .ok (some tok))
    (htruthy : truthyStr tok = true)
    (huser : w.user = some u)
    (hpatch :
      env.patch ⟨"change_password", hashPasswords env ⟨some old, new⟩ u.email⟩ tok = .error e) :
    (changePassword env old new w).result = .error e ∧
    (∀ t p, Action.outboxAdd t p ∉ (changePassword env old new w).trace) ∧
    (∀ a ∈ (changePassword env old new w).trace, a.isDerive = false) ∧
    (changePassword env old new w).world.keys = w.keys ∧
    (changePassword env old new w).world.user = w.user ∧
    (changePassword env old new w).world.outbox = w.outbox := by
  simp [changePassword, _updatePassword, getUser, htok, htruthy, huser, hpatch]

/-- C10, at an example: the service refuses the account update. -/
theorem changePassword_remote_failure_witness :
    (changePassword patchFailEnv "old" "new" signedInWorld).result = .error ⟨"network"⟩ ∧
    (changePassword patchFailEnv "old" "new" signedInWorld).world.keys = signedInWorld.keys ∧
    (changePassword patchFailEnv "old" "new" signedInWorld).world.user = signedInWorld.user :=
  have h := changePassword_remote_failure patchFailEnv "old" "new" signedInWorld "at"
    ⟨"a@b.com", "s1", false, some true⟩ ⟨"network"⟩ rfl rfl rfl rfl
  ⟨h.1, h.2.2.2.1, h.2.2.2.2.1⟩

/-- C7: once `changePassword(old, new)` has returned `true`, its outbox
continuation included, with the stored user keeping the email `e` and the
salt `s` it had, `getEncryptionKey()` returns the key `deriveKey("_uk_@" + e,
new, s)` and the salt `s`; that key differs from the one derived from `old`
whenever the two derivations differ. -/
theorem changePassword_rekeys (env : Env) (old new : String) (w : World) (u u' : User)
    (huser : w.user = some u)
    (hok : (changePassword env old new w).result = .ok (some true))
    (hafter : (changePassword env old new w).world.user = some u')
    (hemail : u'.email = u.email) (hsalt : u'.salt = u.salt) :
    ∃ k, env.deriveKey ("_uk_@" ++ u.email) new u.salt = .ok k ∧
      (getEncryptionKey (changePassword env old new w).world).result
        = .ok (some ⟨some k, u.salt⟩) ∧
      (env.deriveKey ("_uk_@" ++ u.email) old u.salt
          ≠ env.deriveKey ("_uk_@" ++ u.email) new u.salt →
        env.deriveKey ("_uk_@" ++ u.email) old u.salt ≠ .ok k) := by
  rcases h1 : (env.getAccessToken w.session).1 with e | (_ | tok)
  · simp [changePassword, _updatePassword, h1] at hok
  · simp [changePassword, _updatePassword, h1] at hok
  · by_cases ht : truthyStr tok = true
    · rcases hp : env.patch
        ⟨"change_password", hashPasswords env ⟨some old, new⟩ u.email⟩ tok with e | _
      · simp [changePassword, _updatePassword, getUser, h1, ht, huser, hp] at hok
      · rcases hr : (rekey env u.email u.salt new
          ⟨(env.getAccessToken w.session).2, some u, w.keys,
            w.outbox ++ [⟨"change_password", new⟩]⟩).result with e | _
        · simp [changePassword, _updatePassword, getUser, h1, ht, huser, hp, hr] at hok
        · obtain ⟨k, hk, hkeys⟩ := rekey_ok env u.email u.salt new _ hr
          refine ⟨k, hk, ?_, fun hne => hk ▸ hne⟩
          have hkeys2 : (changePassword env old new w).world.keys =
              ("_uk_@" ++ u.email, k) ::
                w.keys.filter (fun p => p.1 != "_uk_@" ++ u.email) := by
            simp [changePassword, _updatePassword, getUser, h1, ht, huser, hp, hr, hkeys]
          simp [getEncryptionKey, getUser, hafter, hkeys2, hemail, hsalt]
    · simp [changePassword, _updatePassword, h1, ht] at hok

/-- C7, at an example: a signed-in user changes the password from `pw1` to
`pw2`. -/
theorem changePassword_rekeys_witness :
    ∃ k, demoEnv.deriveKey "_uk_@a@b.com" "pw2" "s1" = .ok k ∧
      (getEncryptionKey (changePassword demoEnv "pw1" "pw2" signedInWorld).world).result
        = .ok (some ⟨some k, "s1"⟩) ∧
      (demoEnv.deriveKey "_uk_@a@b.com" "pw1" "s1" ≠ demoEnv.deriveKey "_uk_@a@b.com" "pw2" "s1" →
        demoEnv.deriveKey "_uk_@a@b.com" "pw1" "s1" ≠ .ok k) :=
  changePassword_rekeys demoEnv "pw1" "pw2" signedInWorld
    ⟨"a@b.com", "s1", false, some true⟩ ⟨"a@b.com", "s1", false, some true⟩ rfl rfl rfl rfl rfl

end UserManager
